import Mathlib

/-!
Verification of the gesture-detection core of the
Face-and-Hand-Gesture-Detection-System repository
(`gesture_detector.py`), shallowly embedded in Lean.

Coordinates and wall-clock times are modelled by rationals.
Python list indexing `xs[i]`, which raises `IndexError` when the index is
out of range, is modelled with `xs[i]?` inside the `Option` monad;
an `Option`-valued function returning `none` models a raised exception.
Claim theorems are at the end of the file and are named `c1_...`-`c10_...`.
-/

namespace GestureDetector

/-- A single MediaPipe landmark: normalized `(x, y)` coordinates
(`z` is never read by the code under verification). -/
structure Landmark where
  x : ℚ
  y : ℚ
  deriving Repr, DecidableEq

/-- `hand_landmarks.landmark`: the list of landmark points of one hand. -/
abbrev HandLandmarkList := List Landmark

/-- The finger tip indices used by `is_fist`:
`finger_tips = [8, 12, 16, 20]` (index, middle, ring, pinky). -/
def finger_tips : List Nat := [8, 12, 16, 20]

/-- The PIP joint indices used by `is_fist`: `finger_pips = [6, 10, 14, 18]`. -/
def finger_pips : List Nat := [6, 10, 14, 18]

/-- Python's built-in `abs` on a rational value. (Defined by cases so the
kernel can evaluate it; `rabs_eq_abs` below shows it is the usual
absolute value.) -/
def rabs (q : ℚ) : ℚ := if q < 0 then -q else q

/-- One iteration of the `for tip, pip in zip(finger_tips, finger_pips)`
loop of `is_fist`: increments the curled-finger counter when
`landmarks[tip].y > landmarks[pip].y`, propagating an `IndexError`
(`none`) from either indexing operation or from an earlier iteration. -/
def curledStep (landmarks : HandLandmarkList) (acc : Option Nat)
    (tp : Nat × Nat) : Option Nat := do
  let n ← acc
  let t : Landmark ← landmarks[tp.1]?
  let p : Landmark ← landmarks[tp.2]?
  pure (if t.y > p.y then n + 1 else n)

/-- `GestureDetector.is_fist`, embedded from `gesture_detector.py` lines 39-79.
Returns `none` exactly when the Python code would raise an `IndexError`
while indexing the landmark list. -/
def is_fist (landmarks : HandLandmarkList) : Option Bool := do
  let fingers_curled ← (finger_tips.zip finger_pips).foldl
    (curledStep landmarks) (some 0)
  let thumb_tip : Landmark ← landmarks[4]?
  let _thumb_ip : Landmark ← landmarks[3]?
  let thumb_mcp : Landmark ← landmarks[2]?
  let index_mcp : Landmark ← landmarks[5]?
  let thumb_curled : Bool :=
    decide (rabs (thumb_tip.x - thumb_mcp.x) < rabs (index_mcp.x - thumb_mcp.x))
  pure (decide (fingers_curled ≥ 3) && thumb_curled)

/-- `GestureDetector.is_left_hand` (lines 81-102): reads the wrist
(index 0) and middle-finger MCP (index 9), then returns whether the
wrist's x-coordinate is left of the image midline. The `image_width`
argument is accepted but unused, as in the source. -/
def is_left_hand (landmarks : HandLandmarkList) (image_width : Nat) :
    Option Bool := do
  let wrist : Landmark ← landmarks[0]?
  let _middle_mcp : Landmark ← landmarks[9]?
  pure (decide (wrist.x < 1/2))

/-- The mutable alert fields of the `GestureDetector` object:
`alert_active` and `alert_start_time`. -/
structure AlertState where
  alert_active : Bool
  alert_start_time : ℚ
  deriving Repr, DecidableEq

/-- `self.alert_duration = 2` (seconds). -/
def alert_duration : ℚ := 2

/-- `GestureDetector.trigger_alert` (lines 104-110): activates the alert
and stamps the current time, regardless of the prior state. -/
def trigger_alert (now : ℚ) (s : AlertState) : AlertState :=
  { alert_active := true, alert_start_time := now }

/-- `GestureDetector.check_alert_timeout` (lines 112-116): deactivates the
alert when it is active and strictly more than `alert_duration` seconds
have elapsed since `alert_start_time`. -/
def check_alert_timeout (now : ℚ) (s : AlertState) : AlertState :=
  if s.alert_active then
    if now - s.alert_start_time > alert_duration then
      { s with alert_active := false }
    else s
  else s

/-- One entry of `hand_results.multi_handedness`: the code reads
`.classification[0].label`, so we keep the `classification` list of
label strings. -/
structure Handedness where
  classification : List String
  deriving Repr, DecidableEq

/-- The fields of the MediaPipe face result used by `process_frame`:
`face_results.detections` is either absent (`None`) or a list of
detections (whose contents the decision logic never inspects). -/
structure FaceResults where
  detections : Option (List Unit)

/-- The fields of the MediaPipe hand result used by `process_frame`. -/
structure HandResults where
  multi_hand_landmarks : Option (List HandLandmarkList)
  multi_handedness : Option (List Handedness)

/-- The `detection_info` dictionary assembled by `process_frame`. -/
structure DetectionInfo where
  faces_detected : Nat
  hands_detected : Nat
  left_fist_detected : Bool
  deriving Repr, DecidableEq

/-- Python truthiness of an optional list (`if x:`): `None` and the empty
list are falsy, a nonempty list is truthy. -/
def truthy {α : Type} (o : Option (List α)) : Bool :=
  match o with
  | none => false
  | some l => !l.isEmpty

/-- The body of the `for idx, hand_landmarks in enumerate(...)` loop of
`process_frame` (lines 208-248), restricted to its decision-relevant
effects: classify the hand, and when the provider's handedness list is
truthy and labels this hand `Left` while `is_fist` holds, record the
trigger and activate the alert. `none` models a raised exception. -/
def processHand (now : ℚ) (width : Nat)
    (handedness : Option (List Handedness))
    (acc : DetectionInfo × AlertState) (h : Nat × HandLandmarkList) :
    Option (DetectionInfo × AlertState) := do
  let isFist ← is_fist h.2
  let _isLeft ← is_left_hand h.2 width
  if truthy handedness then do
    let hd ← (handedness.getD [])[h.1]?
    let label ← hd.classification[0]?
    if label == "Left" && isFist then
      pure ({ acc.1 with left_fist_detected := true },
            trigger_alert now acc.2)
    else
      pure acc
  else
    pure acc

/-- The initial `detection_info` dictionary of `process_frame`
(lines 190-194). -/
def detection_info_init : DetectionInfo :=
  { faces_detected := 0, hands_detected := 0, left_fist_detected := false }

/-- Lines 197-199 of `process_frame`: when `face_results.detections` is
truthy, `detection_info['faces_detected']` is set to its length. -/
def apply_faces (fr : FaceResults) (info : DetectionInfo) : DetectionInfo :=
  if truthy fr.detections then
    { info with faces_detected := (fr.detections.getD []).length }
  else info

/-- Lines 204-248 of `process_frame`: when
`hand_results.multi_hand_landmarks` is truthy, `hands_detected` is set to
its length and each hand is run through the loop body (`processHand`). -/
def process_hands (now : ℚ) (width : Nat) (hr : HandResults)
    (info : DetectionInfo) (s : AlertState) :
    Option (DetectionInfo × AlertState) :=
  if truthy hr.multi_hand_landmarks then
    (hr.multi_hand_landmarks.getD []).enum.foldlM
      (processHand now width hr.multi_handedness)
      ({ info with
          hands_detected := (hr.multi_hand_landmarks.getD []).length }, s)
  else
    pure (info, s)

/-- `GestureDetector.process_frame` (lines 176-259), restricted to the
detection/alert logic (the drawing calls do not affect the returned
`detection_info` or the alert state). Takes the current wall-clock time,
the image width, the MediaPipe results for this frame and the prior alert
state; returns the `detection_info` dictionary and the new alert state,
or `none` when the Python code would raise. The face count is applied
first, then the hand loop runs (possibly triggering the alert), and the
timeout check comes last, as in the source. -/
def process_frame (now : ℚ) (width : Nat) (fr : FaceResults)
    (hr : HandResults) (s : AlertState) :
    Option (DetectionInfo × AlertState) := do
  let info1 := apply_faces fr detection_info_init
  let r ← process_hands now width hr info1 s
  pure (r.1, check_alert_timeout now r.2)


/-- The y-coordinate of landmark `i` (spec-side shorthand; the default is
irrelevant for in-range indices). -/
def lmY (lms : HandLandmarkList) (i : Nat) : ℚ := (lms[i]?.getD ⟨0, 0⟩).y

/-- The x-coordinate of landmark `i` (spec-side shorthand). -/
def lmX (lms : HandLandmarkList) (i : Nat) : ℚ := (lms[i]?.getD ⟨0, 0⟩).x

/-- Spec-side curled-finger count: how many of the four non-thumb fingers
have tip y strictly greater than PIP y. -/
def spec_curled_count (lms : HandLandmarkList) : Nat :=
  ((finger_tips.zip finger_pips).filter
    (fun tp => decide (lmY lms tp.1 > lmY lms tp.2))).length

/-- Spec-side thumb test: the horizontal distance between thumb tip
(index 4) and thumb MCP (index 2) is strictly smaller than the horizontal
distance between index MCP (index 5) and thumb MCP. -/
def thumb_curled_spec (lms : HandLandmarkList) : Bool :=
  decide (rabs (lmX lms 4 - lmX lms 2) < rabs (lmX lms 5 - lmX lms 2))

/-- Spec-side fist verdict, written from the specification's words: at
least three curled non-thumb fingers and a curled thumb. -/
def is_fist_spec (lms : HandLandmarkList) : Bool :=
  decide (3 ≤ spec_curled_count lms) && thumb_curled_spec lms

/-- The trigger decision of one loop iteration of `process_frame`,
extracted from `processHand`: `some true` when this hand fires the alert,
`some false` when it does not, `none` when the iteration raises. -/
def handTrigger (width : Nat) (handedness : Option (List Handedness))
    (h : Nat × HandLandmarkList) : Option Bool := do
  let isFist ← is_fist h.2
  let _isLeft ← is_left_hand h.2 width
  if truthy handedness then do
    let hd ← (handedness.getD [])[h.1]?
    let label ← hd.classification[0]?
    pure (label == "Left" && isFist)
  else
    pure false

/-- A trigger event in the spec's words: some hand observation of the
frame has provider handedness label `Left` (read from
`multi_handedness[i].classification[0]`) and `is_fist` true. -/
def LeftFistInFrame (hr : HandResults) : Prop :=
  ∃ (hls : List HandLandmarkList) (i : Nat) (lms : HandLandmarkList)
    (hds : List Handedness) (h : Handedness),
    hr.multi_hand_landmarks = some hls ∧ hls[i]? = some lms ∧
    hr.multi_handedness = some hds ∧ hds[i]? = some h ∧
    h.classification[0]? = some "Left" ∧ is_fist lms = some true

/-- A 21-point hand making a fist: every non-thumb tip has y strictly
greater than its PIP joint, and the thumb tip is horizontally closer to
the thumb MCP than the index MCP is. Coordinates are integer-valued
rationals to keep kernel evaluation cheap. -/
def fistHand : HandLandmarkList :=
  [⟨5, 9⟩,    -- 0 wrist
   ⟨4, 8⟩,    -- 1 thumb cmc
   ⟨5, 7⟩,    -- 2 thumb mcp
   ⟨4, 6⟩,    -- 3 thumb ip
   ⟨4, 6⟩,    -- 4 thumb tip
   ⟨8, 5⟩,    -- 5 index mcp
   ⟨8, 5⟩,    -- 6 index pip
   ⟨8, 6⟩,    -- 7 index dip
   ⟨8, 7⟩,    -- 8 index tip
   ⟨9, 5⟩,    -- 9 middle mcp
   ⟨9, 5⟩,    -- 10 middle pip
   ⟨9, 6⟩,    -- 11 middle dip
   ⟨9, 7⟩,    -- 12 middle tip
   ⟨10, 5⟩,   -- 13 ring mcp
   ⟨10, 5⟩,   -- 14 ring pip
   ⟨10, 6⟩,   -- 15 ring dip
   ⟨10, 7⟩,   -- 16 ring tip
   ⟨11, 5⟩,   -- 17 pinky mcp
   ⟨11, 5⟩,   -- 18 pinky pip
   ⟨11, 6⟩,   -- 19 pinky dip
   ⟨11, 7⟩]   -- 20 pinky tip

/-- `fistHand` with one extra point appended: a 22-point landmark set. -/
def longHand : HandLandmarkList := fistHand ++ [⟨0, 0⟩]

/-- A hand result carrying one fist hand labelled `Left` by the provider. -/
def leftFistResults : HandResults :=
  { multi_hand_landmarks := some [fistHand],
    multi_handedness := some [{ classification := ["Left"] }] }

/-- A hand result with no hands (`multi_hand_landmarks` is `None`). -/
def noHandsResults : HandResults :=
  { multi_hand_landmarks := none, multi_handedness := none }

/-- A face result with no detections. -/
def noFaces : FaceResults := { detections := none }



/-- A copy of `fistHand` whose wrist (index 0) is moved to the far left of
the image, flipping the `is_left_hand` position heuristic while leaving
every landmark that `is_fist` reads unchanged. -/
def fistHandShifted : HandLandmarkList := Landmark.mk 0 9 :: fistHand.tail

/-- Like `leftFistResults` but with the position-shifted hand. -/
def leftFistShiftedResults : HandResults :=
  { multi_hand_landmarks := some [fistHandShifted],
    multi_handedness := some [{ classification := ["Left"] }] }

/-- A hand result with one fist hand but no handedness classification list
(`multi_handedness` is `None`). -/
def noHandednessResults : HandResults :=
  { multi_hand_landmarks := some [fistHand], multi_handedness := none }

lemma rabs_eq_abs (q : ℚ) : rabs q = |q| := by
  rw [rabs, abs]
  rcases le_or_lt 0 q with h | h
  · rw [if_neg (not_lt.mpr h), max_eq_left (by linarith)]
  · rw [if_pos h, max_eq_right (by linarith)]

lemma tips_zip_pips :
    finger_tips.zip finger_pips = [(8, 6), (12, 10), (16, 14), (20, 18)] := rfl

lemma getElem?_isSome (l : List Landmark) (i : Nat) (h : i < l.length) :
    ∃ a, l[i]? = some a := by
  rcases hx : l[i]? with _ | a
  · exact absurd (List.getElem?_eq_none_iff.mp hx) (by omega)
  · exact ⟨a, rfl⟩

lemma is_fist_eq_some (lms : HandLandmarkList) (h : 21 ≤ lms.length) :
    is_fist lms = some (is_fist_spec lms) := by
  obtain ⟨a2, h2⟩ := getElem?_isSome lms 2 (by omega)
  obtain ⟨a3, h3⟩ := getElem?_isSome lms 3 (by omega)
  obtain ⟨a4, h4⟩ := getElem?_isSome lms 4 (by omega)
  obtain ⟨a5, h5⟩ := getElem?_isSome lms 5 (by omega)
  obtain ⟨a6, h6⟩ := getElem?_isSome lms 6 (by omega)
  obtain ⟨a8, h8⟩ := getElem?_isSome lms 8 (by omega)
  obtain ⟨a10, h10⟩ := getElem?_isSome lms 10 (by omega)
  obtain ⟨a12, h12⟩ := getElem?_isSome lms 12 (by omega)
  obtain ⟨a14, h14⟩ := getElem?_isSome lms 14 (by omega)
  obtain ⟨a16, h16⟩ := getElem?_isSome lms 16 (by omega)
  obtain ⟨a18, h18⟩ := getElem?_isSome lms 18 (by omega)
  obtain ⟨a20, h20⟩ := getElem?_isSome lms 20 (by omega)
  simp only [is_fist, tips_zip_pips, List.foldl, curledStep, bind, Option.bind,
    h2, h3, h4, h5, h6, h8, h10, h12, h14, h16, h18, h20, pure,
    is_fist_spec, thumb_curled_spec, spec_curled_count, List.filter, lmY, lmX,
    Option.getD_some]
  by_cases c1 : a6.y < a8.y <;>
  by_cases c2 : a10.y < a12.y <;>
  by_cases c3 : a14.y < a16.y <;>
  by_cases c4 : a18.y < a20.y <;>
  simp [c1, c2, c3, c4]

lemma curledStep_last_none (lms : HandLandmarkList) (acc : Option Nat)
    (h20 : lms[20]? = none) : curledStep lms acc (20, 18) = none := by
  cases acc <;> simp [curledStep, h20]

lemma is_fist_eq_none (lms : HandLandmarkList) (h : lms.length < 21) :
    is_fist lms = none := by
  have h20 : lms[20]? = none := List.getElem?_eq_none (by omega)
  simp [is_fist, tips_zip_pips, List.foldl,
    curledStep_last_none lms _ h20]

lemma is_fist_none_iff (lms : HandLandmarkList) :
    is_fist lms = none ↔ lms.length < 21 := by
  constructor
  · intro hn
    by_contra hlen
    rw [is_fist_eq_some lms (by omega)] at hn
    exact Option.some_ne_none _ hn
  · exact is_fist_eq_none lms

lemma is_left_hand_eq_some (lms : HandLandmarkList) (w : Nat)
    (h : 21 ≤ lms.length) :
    is_left_hand lms w = some (decide (lmX lms 0 < 1/2)) := by
  obtain ⟨a0, h0⟩ := getElem?_isSome lms 0 (by omega)
  obtain ⟨a9, h9⟩ := getElem?_isSome lms 9 (by omega)
  simp [is_left_hand, h0, h9, lmX]



lemma processHand_char (now : ℚ) (width : Nat)
    (hd : Option (List Handedness)) (acc : DetectionInfo × AlertState)
    (x : Nat × HandLandmarkList) :
    processHand now width hd acc x =
      (handTrigger width hd x).map (fun trig =>
        if trig then
          ({ acc.1 with left_fist_detected := true }, trigger_alert now acc.2)
        else acc) := by
  rcases hf : is_fist x.2 with _ | b
  · simp [processHand, handTrigger, hf]
  rcases hl : is_left_hand x.2 width with _ | c
  · simp [processHand, handTrigger, hf, hl]
  by_cases ht : truthy hd = true
  · rcases hh : (hd.getD [])[x.1]? with _ | hde
    · simp [processHand, handTrigger, hf, hl, ht, hh]
    rcases hc : hde.classification[0]? with _ | lab
    · simp [processHand, handTrigger, hf, hl, ht, hh, hc]
    cases hb : (lab == "Left" && b) <;>
      simp [processHand, handTrigger, hf, hl, ht, hh, hc, hb] <;>
      simp_all
  · simp [processHand, handTrigger, hf, hl, ht]

lemma foldlM_processHand_spec (now : ℚ) (width : Nat)
    (hd : Option (List Handedness)) :
    ∀ (l : List (Nat × HandLandmarkList)) (acc r : DetectionInfo × AlertState),
      l.foldlM (processHand now width hd) acc = some r →
      r.1.faces_detected = acc.1.faces_detected ∧
      r.1.hands_detected = acc.1.hands_detected ∧
      r.1.left_fist_detected =
        (acc.1.left_fist_detected ||
          decide (∃ x ∈ l, handTrigger width hd x = some true)) ∧
      ((∃ x ∈ l, handTrigger width hd x = some true) →
        r.2 = { alert_active := true, alert_start_time := now }) ∧
      (¬(∃ x ∈ l, handTrigger width hd x = some true) → r.2 = acc.2) := by
  intro l
  induction l with
  | nil =>
    intro acc r h
    simp only [List.foldlM_nil, pure, Option.some.injEq] at h
    subst h
    simp
  | cons x l ih =>
    intro acc r h
    rw [List.foldlM_cons, processHand_char] at h
    rcases htr : handTrigger width hd x with _ | trig
    · rw [htr] at h; simp at h
    rw [htr] at h
    cases trig with
    | true =>
      simp only [Option.map_some', if_true, Option.bind_eq_bind',
        Option.some_bind'] at h
      obtain ⟨hf, hh, hl, hs1, hs2⟩ := ih _ r h
      refine ⟨by simpa using hf, by simpa using hh, ?_, ?_, ?_⟩
      · rw [hl]
        simp [htr]
      · intro _
        by_cases hex : ∃ y ∈ l, handTrigger width hd y = some true
        · exact hs1 hex
        · rw [hs2 hex]; rfl
      · intro hnex
        exact absurd ⟨x, by simp, htr⟩ hnex
    | false =>
      simp only [Option.map_some', Bool.false_eq_true, if_false,
        Option.bind_eq_bind', Option.some_bind'] at h
      obtain ⟨hf, hh, hl, hs1, hs2⟩ := ih _ r h
      refine ⟨hf, hh, ?_, ?_, ?_⟩
      · rw [hl]
        congr 1
        simp only [decide_eq_decide, List.mem_cons]
        constructor
        · rintro ⟨y, hy, hty⟩; exact ⟨y, Or.inr hy, hty⟩
        · rintro ⟨y, hy | hy, hty⟩
          · subst hy; rw [htr] at hty; simp at hty
          · exact ⟨y, hy, hty⟩
      · rintro ⟨y, hy, hty⟩
        rcases List.mem_cons.mp hy with h1 | h1
        · subst h1; rw [htr] at hty; simp at hty
        · exact hs1 ⟨y, h1, hty⟩
      · intro hnex
        refine hs2 fun ⟨y, hy, hty⟩ => hnex ⟨y, List.mem_cons_of_mem _ hy, hty⟩



lemma exists_trigger_iff (width : Nat) (hr : HandResults)
    (hls : List HandLandmarkList)
    (hmhl : hr.multi_hand_landmarks = some hls) :
    (∃ x ∈ hls.enum, handTrigger width hr.multi_handedness x = some true) ↔
      LeftFistInFrame hr := by
  constructor
  · rintro ⟨⟨i, lms⟩, hmem, htrig⟩
    have hget : hls[i]? = some lms := by
      have := List.mk_mem_enum_iff_getElem?.mp hmem
      simpa using this
    rcases hf : is_fist lms with _ | b
    · rw [handTrigger, hf] at htrig; simp at htrig
    rcases hl : is_left_hand lms width with _ | c
    · rw [handTrigger, hf, hl] at htrig; simp at htrig
    by_cases ht : truthy hr.multi_handedness = true
    · rcases hds : hr.multi_handedness with _ | hdl
      · rw [hds] at ht; simp [truthy] at ht
      rcases hh : hdl[i]? with _ | hde
      · rw [handTrigger, hf, hl] at htrig
        rw [hds] at ht
        simp [ht, hds, hh] at htrig
      rcases hc : hde.classification[0]? with _ | lab
      · rw [handTrigger, hf, hl] at htrig
        rw [hds] at ht
        simp [ht, hds, hh, hc] at htrig
      rw [handTrigger, hf, hl] at htrig
      rw [hds] at ht
      simp only [ht, if_true, hds, Option.getD_some, hh,
        Option.bind_eq_bind', Option.some_bind', hc, pure,
        Option.some.injEq] at htrig
      have hlab : lab = "Left" ∧ b = true := by
        have := htrig
        cases b <;> cases hb : (lab == "Left") <;> simp_all
      exact ⟨hls, i, lms, hdl, hde, hmhl, hget, hds, hh,
        hlab.1 ▸ hc, hlab.2 ▸ hf⟩
    · rw [handTrigger, hf, hl] at htrig
      simp [ht] at htrig
  · rintro ⟨hls', i, lms, hdl, hde, hmhl', hget, hds, hh, hc, hf⟩
    rw [hmhl] at hmhl'
    injection hmhl' with he
    subst he
    have hlen : 21 ≤ lms.length := by
      by_contra hlt
      rw [is_fist_eq_none lms (by omega)] at hf
      exact Option.noConfusion hf
    have hlen2 : i < hdl.length := by
      by_contra hge
      rw [List.getElem?_eq_none (by omega)] at hh
      exact Option.noConfusion hh
    have ht : truthy (some hdl : Option (List Handedness)) = true := by
      cases hdl with
      | nil => simp at hlen2
      | cons a t => rfl
    refine ⟨(i, lms), List.mk_mem_enum_iff_getElem?.mpr (by simpa using hget), ?_⟩
    rw [handTrigger, hf, is_left_hand_eq_some lms width hlen]
    simp only [ht, if_true, hds, Option.getD_some, hh,
      Option.bind_eq_bind', Option.some_bind', hc, pure]
    simp



lemma not_leftFist_of_none (hr : HandResults)
    (h : hr.multi_hand_landmarks = none) : ¬ LeftFistInFrame hr := by
  rintro ⟨hls, i, lms, hdl, hde, hmhl, _⟩
  rw [h] at hmhl
  exact Option.noConfusion hmhl

lemma not_leftFist_of_nil (hr : HandResults)
    (h : hr.multi_hand_landmarks = some []) : ¬ LeftFistInFrame hr := by
  rintro ⟨hls, i, lms, hdl, hde, hmhl, hget, _⟩
  rw [h] at hmhl
  injection hmhl with he
  subst he
  simp at hget

lemma check_alert_timeout_fresh (now : ℚ) :
    check_alert_timeout now { alert_active := true, alert_start_time := now } =
      { alert_active := true, alert_start_time := now } := by
  simp [check_alert_timeout, alert_duration]

lemma apply_faces_init (fr : FaceResults) :
    apply_faces fr detection_info_init =
      { faces_detected := (fr.detections.getD []).length,
        hands_detected := 0, left_fist_detected := false } := by
  rcases hd : fr.detections with _ | ds
  · simp [apply_faces, truthy, hd, detection_info_init]
  · rcases ds with _ | ⟨d, ds⟩ <;>
      simp [apply_faces, truthy, hd, detection_info_init]

lemma process_hands_spec (now : ℚ) (width : Nat) (hr : HandResults)
    (info : DetectionInfo) (s : AlertState) (info2 : DetectionInfo)
    (s2 : AlertState) (hh0 : info.hands_detected = 0)
    (hlf : info.left_fist_detected = false)
    (h : process_hands now width hr info s = some (info2, s2)) :
    info2.faces_detected = info.faces_detected ∧
    info2.hands_detected = (hr.multi_hand_landmarks.getD []).length ∧
    (info2.left_fist_detected = true ↔ LeftFistInFrame hr) ∧
    (LeftFistInFrame hr →
      s2 = { alert_active := true, alert_start_time := now }) ∧
    (¬ LeftFistInFrame hr → s2 = s) := by
  by_cases ht : truthy hr.multi_hand_landmarks = true
  · rcases hmhl : hr.multi_hand_landmarks with _ | hls
    · rw [hmhl] at ht; simp [truthy] at ht
    rw [process_hands, hmhl] at h
    rw [hmhl] at ht
    rw [if_pos ht] at h
    simp only [Option.getD_some] at h
    obtain ⟨hf, hh, hl, hs1, hs2⟩ :=
      foldlM_processHand_spec now width hr.multi_handedness hls.enum _ _ h
    dsimp only at hf hh hl hs1 hs2
    rw [exists_trigger_iff width hr hls hmhl] at hs1 hs2
    refine ⟨hf, by simp [hh], ?_, hs1, fun hn => hs2 hn⟩
    rw [hl, hlf]
    simp only [Bool.false_or, decide_eq_true_eq]
    exact exists_trigger_iff width hr hls hmhl
  · have hnolf : ¬ LeftFistInFrame hr := by
      rcases hmhl : hr.multi_hand_landmarks with _ | hls
      · exact not_leftFist_of_none hr hmhl
      · rcases hls with _ | ⟨a, hls⟩
        · exact not_leftFist_of_nil hr hmhl
        · rw [hmhl] at ht; simp [truthy] at ht
    rw [process_hands, if_neg ht] at h
    simp only [pure, Option.some.injEq, Prod.mk.injEq] at h
    obtain ⟨h1, h2⟩ := h
    subst h1; subst h2
    have hlen0 : (hr.multi_hand_landmarks.getD []).length = 0 := by
      rcases hmhl : hr.multi_hand_landmarks with _ | hls
      · rfl
      · rcases hls with _ | ⟨a, hls⟩
        · rfl
        · rw [hmhl] at ht; simp [truthy] at ht
    refine ⟨rfl, by rw [hlen0, hh0], ?_, fun hlf2 => absurd hlf2 hnolf, fun _ => rfl⟩
    rw [hlf]
    simp [hnolf]

lemma process_frame_spec (now : ℚ) (width : Nat) (fr : FaceResults)
    (hr : HandResults) (s : AlertState) (info : DetectionInfo)
    (s' : AlertState)
    (h : process_frame now width fr hr s = some (info, s')) :
    info.faces_detected = (fr.detections.getD []).length ∧
    info.hands_detected = (hr.multi_hand_landmarks.getD []).length ∧
    (info.left_fist_detected = true ↔ LeftFistInFrame hr) ∧
    (LeftFistInFrame hr →
      s' = { alert_active := true, alert_start_time := now }) ∧
    (¬ LeftFistInFrame hr → s' = check_alert_timeout now s) := by
  rw [process_frame] at h
  rcases hph : process_hands now width hr (apply_faces fr detection_info_init) s
    with _ | ⟨info2, s2⟩
  · rw [hph] at h; simp at h
  rw [hph] at h
  simp only [Option.bind_eq_bind', Option.some_bind', pure,
    Option.some.injEq, Prod.mk.injEq] at h
  obtain ⟨h1, h2⟩ := h
  obtain ⟨hf, hh, hl, hs1, hs2⟩ :=
    process_hands_spec now width hr _ s info2 s2
      (by rw [apply_faces_init]) (by rw [apply_faces_init]) hph
  subst h1
  refine ⟨by rw [hf, apply_faces_init], hh, hl, ?_, ?_⟩
  · intro hlff
    rw [← h2, hs1 hlff, check_alert_timeout_fresh]
  · intro hn
    rw [← h2, hs2 hn]



lemma handTrigger_handedness_none (width : Nat) (x : Nat × HandLandmarkList)
    (h : 21 ≤ x.2.length) : handTrigger width none x = some false := by
  rw [handTrigger, is_fist_eq_some x.2 h, is_left_hand_eq_some x.2 width h]
  simp [truthy]

lemma foldlM_processHand_no_trigger (now : ℚ) (width : Nat)
    (hd : Option (List Handedness)) :
    ∀ (l : List (Nat × HandLandmarkList)) (acc : DetectionInfo × AlertState),
      (∀ x ∈ l, handTrigger width hd x = some false) →
      l.foldlM (processHand now width hd) acc = some acc := by
  intro l
  induction l with
  | nil => intro acc _; rfl
  | cons x l ih =>
    intro acc hall
    rw [List.foldlM_cons, processHand_char, hall x (List.mem_cons_self x l)]
    simp only [Option.map_some', Bool.false_eq_true, if_false,
      Option.bind_eq_bind', Option.some_bind']
    exact ih acc fun y hy => hall y (List.mem_cons_of_mem x hy)

lemma handTrigger_congr (width : Nat) (hd : Option (List Handedness))
    (i : Nat) (x y : HandLandmarkList) (hf : is_fist x = is_fist y) :
    handTrigger width hd (i, x) = handTrigger width hd (i, y) := by
  unfold handTrigger
  dsimp only
  rw [← hf]
  rcases hfx : is_fist x with _ | b
  · simp
  have hlx : 21 ≤ x.length := by
    by_contra hlt
    rw [is_fist_eq_none x (by omega)] at hfx
    exact Option.noConfusion hfx
  have hly : 21 ≤ y.length := by
    by_contra hlt
    rw [hf, is_fist_eq_none y (by omega)] at hfx
    exact Option.noConfusion hfx
  rw [is_left_hand_eq_some x width hlx, is_left_hand_eq_some y width hly]
  simp

lemma foldlM_processHand_congr (now : ℚ) (width : Nat)
    (hd : Option (List Handedness)) :
    ∀ (xs ys : List (Nat × HandLandmarkList))
      (acc : DetectionInfo × AlertState),
      xs.length = ys.length →
      (∀ (i : Nat) (x y : Nat × HandLandmarkList),
        xs[i]? = some x → ys[i]? = some y →
        handTrigger width hd x = handTrigger width hd y) →
      xs.foldlM (processHand now width hd) acc =
        ys.foldlM (processHand now width hd) acc := by
  intro xs
  induction xs with
  | nil =>
    intro ys acc hlen _
    rw [List.length_nil] at hlen
    rw [List.eq_nil_of_length_eq_zero hlen.symm]
  | cons x xs ih =>
    intro ys acc hlen hpt
    rcases ys with _ | ⟨y, ys⟩
    · simp at hlen
    rw [List.foldlM_cons, List.foldlM_cons, processHand_char, processHand_char,
      hpt 0 x y (by simp) (by simp)]
    rcases htr : handTrigger width hd y with _ | trig
    · rfl
    simp only [Option.map_some', Option.bind_eq_bind', Option.some_bind']
    exact ih ys _ (by simpa using hlen)
      fun i a b ha hb => hpt (i + 1) a b (by simpa using ha) (by simpa using hb)



lemma process_hands_congr (now : ℚ) (width : Nat) (hr1 hr2 : HandResults)
    (info : DetectionInfo) (s : AlertState)
    (l1 l2 : List HandLandmarkList)
    (hhd : hr1.multi_handedness = hr2.multi_handedness)
    (hl1 : hr1.multi_hand_landmarks = some l1)
    (hl2 : hr2.multi_hand_landmarks = some l2)
    (hlen : l1.length = l2.length)
    (hfist : ∀ (i : Nat) (x y : HandLandmarkList),
      l1[i]? = some x → l2[i]? = some y → is_fist x = is_fist y) :
    process_hands now width hr1 info s = process_hands now width hr2 info s := by
  have hemp : l1.isEmpty = l2.isEmpty := by
    rcases l1 with _ | ⟨a, l1⟩ <;> rcases l2 with _ | ⟨b, l2⟩ <;>
      first | rfl | simp at hlen
  rw [process_hands, process_hands, hl1, hl2, hhd]
  simp only [truthy, Option.getD_some, hemp, hlen]
  by_cases ht : l2.isEmpty = true
  · rw [ht]
    simp
  · rw [Bool.not_eq_true] at ht
    rw [ht]
    simp only [Bool.not_false, if_true]
    apply foldlM_processHand_congr
    · simp [hlen]
    · intro i x y hx hy
      rw [List.getElem?_enum] at hx hy
      rcases hgx : l1[i]? with _ | a
      · rw [hgx] at hx; simp at hx
      rcases hgy : l2[i]? with _ | b
      · rw [hgy] at hy; simp at hy
      rw [hgx] at hx
      rw [hgy] at hy
      simp only [Option.map_some', Option.some.injEq] at hx hy
      rw [← hx, ← hy]
      exact handTrigger_congr width _ i a b (hfist i a b hgx hgy)

unseal Rat.add Rat.sub in
lemma leftFist_leftFistResults : LeftFistInFrame leftFistResults :=
  ⟨[fistHand], 0, fistHand, [{ classification := ["Left"] }],
    { classification := ["Left"] }, rfl, rfl, rfl, rfl, rfl, by decide⟩

/-- C1: for a 21-point hand landmark set, `is_fist` returns `some true`
iff at least three of the four non-thumb fingers have tip y strictly
greater than PIP y (indices 8/6, 12/10, 16/14, 20/18) and the thumb is
curled, i.e. `|x₄ − x₂| < |x₅ − x₂|`; in particular exactly three curled
fingers with a curled thumb yields `some true`. -/
theorem c1_is_fist_iff_three_curled_and_thumb (lms : HandLandmarkList)
    (h : lms.length = 21) :
    (is_fist lms = some true ↔
      3 ≤ spec_curled_count lms ∧ thumb_curled_spec lms = true) ∧
    (spec_curled_count lms = 3 → thumb_curled_spec lms = true →
      is_fist lms = some true) := by
  rw [is_fist_eq_some lms (by omega)]
  constructor
  · simp [is_fist_spec]
  · intro h3 ht
    simp [is_fist_spec, h3, ht]

unseal Rat.add Rat.sub in
/-- Witness for C1 at the concrete 21-point `fistHand`. -/
theorem c1_witness :
    fistHand.length = 21 ∧ is_fist fistHand = some true :=
  ⟨by decide,
    (c1_is_fist_iff_three_curled_and_thumb fistHand (by decide)).1.mpr
      (by decide)⟩

unseal Rat.add Rat.sub in
/-- C2 (counterexample): `longHand` has 22 points, yet `is_fist` returns
a boolean verdict (`some true`) instead of signalling an error — so the
claim that every point count other than 21 fails fast is false for sets
with more than 21 points. -/
theorem c2_counterexample_22_points_verdict :
    longHand.length = 22 ∧ is_fist longHand = some true := by decide

/-- C2 (amended): `is_fist` signals a classification error exactly for
landmark sets with fewer than 21 points; sets with 21 or more points
(including more than 21) always get a boolean verdict. -/
theorem c2_fail_fast_iff_fewer_than_21 (lms : HandLandmarkList) :
    is_fist lms = none ↔ lms.length < 21 :=
  is_fist_none_iff lms

unseal Rat.add Rat.sub Rat.mul Rat.inv in
/-- C3: when a frame contains a provider-labelled `Left` hand with
`is_fist` true, `process_frame` leaves the alert Active with
`activated_at` reset to the current time, regardless of the prior state;
and in the concrete scenario with triggers at t = 0 and t = 3/2 and a
trigger-free query at t = 3, the alert is still Active. -/
theorem c3_trigger_activates_and_resets (now : ℚ) (width : Nat)
    (fr : FaceResults) (hr : HandResults) (s : AlertState)
    (info : DetectionInfo) (s' : AlertState)
    (h : process_frame now width fr hr s = some (info, s'))
    (htrig : LeftFistInFrame hr) :
    s' = { alert_active := true, alert_start_time := now } ∧
    ((process_frame 0 640 noFaces leftFistResults
        { alert_active := false, alert_start_time := 0 }).bind (fun r1 =>
      (process_frame (3/2) 640 noFaces leftFistResults r1.2).bind (fun r2 =>
      (process_frame 3 640 noFaces noHandsResults r2.2).map (fun r3 =>
        r3.2.alert_active)))) = some true := by
  refine ⟨(process_frame_spec now width fr hr s info s' h).2.2.2.1 htrig, ?_⟩
  decide

unseal Rat.add Rat.sub Rat.mul Rat.inv in
/-- Witness for C3 at a concrete triggering frame. -/
theorem c3_witness :
    ({ alert_active := true, alert_start_time := 0 } : AlertState) =
      { alert_active := true, alert_start_time := 0 } ∧
    ((process_frame 0 640 noFaces leftFistResults
        { alert_active := false, alert_start_time := 0 }).bind (fun r1 =>
      (process_frame (3/2) 640 noFaces leftFistResults r1.2).bind (fun r2 =>
      (process_frame 3 640 noFaces noHandsResults r2.2).map (fun r3 =>
        r3.2.alert_active)))) = some true :=
  c3_trigger_activates_and_resets 0 640 noFaces leftFistResults
    { alert_active := false, alert_start_time := 0 }
    { faces_detected := 0, hands_detected := 1, left_fist_detected := true }
    { alert_active := true, alert_start_time := 0 }
    (by decide) leftFist_leftFistResults

/-- C4: the timeout evaluation keeps the alert Active exactly while the
elapsed time does not strictly exceed the 2-second duration: after a
trigger at t = 0 the alert is Active at t = 19/10 and Inactive at
t = 21/10. -/
theorem c4_timeout_after_two_seconds (s : AlertState) (now : ℚ) :
    (check_alert_timeout now s).alert_active =
      (s.alert_active && !(decide (now - s.alert_start_time > alert_duration))) ∧
    (check_alert_timeout (19/10) (trigger_alert 0 s)).alert_active = true ∧
    (check_alert_timeout (21/10) (trigger_alert 0 s)).alert_active = false := by
  refine ⟨?_, ?_, ?_⟩
  · cases hs : s.alert_active <;>
      by_cases hgt : now - s.alert_start_time > alert_duration <;>
      simp [check_alert_timeout, hs, hgt]
  · norm_num [check_alert_timeout, trigger_alert, alert_duration]
  · norm_num [check_alert_timeout, trigger_alert, alert_duration]

/-- C5: the trigger check runs before the timeout check inside
`process_frame`, so a frame containing a qualifying Left-hand fist never
ends with the alert Inactive. -/
theorem c5_trigger_frame_never_ends_inactive (now : ℚ) (width : Nat)
    (fr : FaceResults) (hr : HandResults) (s : AlertState)
    (info : DetectionInfo) (s' : AlertState)
    (h : process_frame now width fr hr s = some (info, s'))
    (htrig : LeftFistInFrame hr) :
    s'.alert_active = true := by
  rw [(process_frame_spec now width fr hr s info s' h).2.2.2.1 htrig]

unseal Rat.add Rat.sub in
/-- Witness for C5 at a concrete triggering frame whose prior activation
(at t = -5, queried at t = 0) would otherwise have timed out. -/
theorem c5_witness :
    ({ alert_active := true, alert_start_time := 0 } : AlertState).alert_active
      = true :=
  c5_trigger_frame_never_ends_inactive 0 640 noFaces leftFistResults
    { alert_active := true, alert_start_time := -5 }
    { faces_detected := 0, hands_detected := 1, left_fist_detected := true }
    { alert_active := true, alert_start_time := 0 }
    (by decide) leftFist_leftFistResults

/-- C6: `left_fist_detected` in the returned summary is true iff some
hand observation of the same frame carries the provider label `Left` and
`is_fist` true; the prior alert state `s` is universally quantified and
absent from the right-hand side, so the reported value is independent of
it. -/
theorem c6_left_fist_detected_iff (now : ℚ) (width : Nat)
    (fr : FaceResults) (hr : HandResults) (s : AlertState)
    (info : DetectionInfo) (s' : AlertState)
    (h : process_frame now width fr hr s = some (info, s')) :
    info.left_fist_detected = true ↔ LeftFistInFrame hr :=
  (process_frame_spec now width fr hr s info s' h).2.2.1

unseal Rat.add Rat.sub in
/-- Witness for C6 at a concrete frame with an Active prior state. -/
theorem c6_witness :
    ({ faces_detected := 0, hands_detected := 1, left_fist_detected := true } :
        DetectionInfo).left_fist_detected = true ↔
      LeftFistInFrame leftFistResults :=
  c6_left_fist_detected_iff 0 640 noFaces leftFistResults
    { alert_active := true, alert_start_time := 0 }
    { faces_detected := 0, hands_detected := 1, left_fist_detected := true }
    { alert_active := true, alert_start_time := 0 }
    (by decide)

/-- C7: the alert-trigger decision and the reported `left_fist_detected`
depend only on the provider's handedness labels and the `is_fist` verdicts:
two frames with identical handedness results and pointwise identical
`is_fist` outcomes — but possibly different wrist x-positions and hence a
different `is_left_hand` heuristic output — make `process_frame` produce
identical results (same detection summary, same alert state, same
error behaviour). -/
theorem c7_trigger_ignores_position_heuristic (now : ℚ) (width : Nat)
    (fr : FaceResults) (s : AlertState) (hr1 hr2 : HandResults)
    (l1 l2 : List HandLandmarkList)
    (hhd : hr1.multi_handedness = hr2.multi_handedness)
    (hl1 : hr1.multi_hand_landmarks = some l1)
    (hl2 : hr2.multi_hand_landmarks = some l2)
    (hlen : l1.length = l2.length)
    (hfist : ∀ (i : Nat) (x y : HandLandmarkList),
      l1[i]? = some x → l2[i]? = some y → is_fist x = is_fist y) :
    process_frame now width fr hr1 s = process_frame now width fr hr2 s := by
  rw [process_frame, process_frame,
    process_hands_congr now width hr1 hr2 _ s l1 l2 hhd hl1 hl2 hlen hfist]



unseal Rat.add Rat.sub in
/-- Witness for C7: two concrete one-hand frames identical except for the
wrist x-position (0 vs 5, flipping the `is_left_hand` heuristic) produce
identical `process_frame` results. -/
theorem c7_witness :
    process_frame 0 640 noFaces leftFistResults
        { alert_active := false, alert_start_time := 0 } =
      process_frame 0 640 noFaces leftFistShiftedResults
        { alert_active := false, alert_start_time := 0 } :=
  c7_trigger_ignores_position_heuristic 0 640 noFaces
    { alert_active := false, alert_start_time := 0 }
    leftFistResults leftFistShiftedResults [fistHand] [fistHandShifted]
    rfl rfl rfl (by decide)
    (fun i x y hx hy => by
      match i with
      | 0 =>
        simp only [List.getElem?_cons_zero, Option.some.injEq] at hx hy
        rw [← hx, ← hy]
        decide
      | n + 1 => simp at hx)

/-- C8: a frame with zero hands returns, without error, a summary with
`hands_detected = 0`, `left_fist_detected = false` and `faces_detected`
equal to the number of returned face regions, and the alert state is
changed only by the timeout evaluation. -/
theorem c8_zero_hands_normal (now : ℚ) (width : Nat) (fr : FaceResults)
    (hr : HandResults) (s : AlertState)
    (h : hr.multi_hand_landmarks = none ∨ hr.multi_hand_landmarks = some []) :
    process_frame now width fr hr s =
      some ({ faces_detected := (fr.detections.getD []).length,
              hands_detected := 0, left_fist_detected := false },
            check_alert_timeout now s) := by
  have hph : process_hands now width hr (apply_faces fr detection_info_init) s
      = some (apply_faces fr detection_info_init, s) := by
    rcases h with h | h <;> rw [process_hands, h] <;> simp [truthy]
  rw [process_frame, hph]
  simp only [Option.bind_eq_bind', Option.some_bind', pure, apply_faces_init]

/-- Witness for C8 at a concrete empty frame with an Active prior state. -/
theorem c8_witness :
    process_frame 5 640 noFaces noHandsResults
        { alert_active := true, alert_start_time := 4 } =
      some ({ faces_detected := (noFaces.detections.getD []).length,
              hands_detected := 0, left_fist_detected := false },
            check_alert_timeout 5 { alert_active := true, alert_start_time := 4 }) :=
  c8_zero_hands_normal 5 640 noFaces noHandsResults
    { alert_active := true, alert_start_time := 4 } (Or.inl rfl)

/-- C9: the timeout evaluation can only deactivate, never activate: an
Inactive state stays Inactive through `check_alert_timeout`, and a
`process_frame` call reporting no trigger event leaves an Inactive alert
Inactive. -/
theorem c9_timeout_never_activates (now : ℚ) (width : Nat)
    (fr : FaceResults) (hr : HandResults) (s : AlertState)
    (info : DetectionInfo) (s' : AlertState)
    (h0 : s.alert_active = false) :
    (check_alert_timeout now s).alert_active = false ∧
    (process_frame now width fr hr s = some (info, s') →
      info.left_fist_detected = false → s'.alert_active = false) := by
  have hkeep : (check_alert_timeout now s).alert_active = false := by
    simp [check_alert_timeout, h0]
  refine ⟨hkeep, fun h hlf => ?_⟩
  obtain ⟨-, -, hiff, -, hs2⟩ := process_frame_spec now width fr hr s info s' h
  have hn : ¬ LeftFistInFrame hr := fun hl => by
    rw [hiff.mpr hl] at hlf
    exact Bool.noConfusion hlf
  rw [hs2 hn, hkeep]

/-- Witness for C9 at a concrete empty frame and Inactive prior state. -/
theorem c9_witness :
    (check_alert_timeout 0 { alert_active := false, alert_start_time := 5 }).alert_active
      = false ∧
    (process_frame 0 640 noFaces noHandsResults
        { alert_active := false, alert_start_time := 5 } =
      some ({ faces_detected := 0, hands_detected := 0,
              left_fist_detected := false },
            { alert_active := false, alert_start_time := 5 }) →
      ({ faces_detected := 0, hands_detected := 0,
         left_fist_detected := false } : DetectionInfo).left_fist_detected
        = false →
      ({ alert_active := false, alert_start_time := 5 } : AlertState).alert_active
        = false) :=
  c9_timeout_never_activates 0 640 noFaces noHandsResults
    { alert_active := false, alert_start_time := 5 }
    { faces_detected := 0, hands_detected := 0, left_fist_detected := false }
    { alert_active := false, alert_start_time := 5 } rfl

/-- C10: when the provider returns hand landmark sets (each of 21 points)
but no handedness classification list, `process_frame` still counts the
hands and completes without error, but no trigger can occur:
`left_fist_detected` is false and the state changes only by timeout, even
when some hand satisfies `is_fist`. -/
theorem c10_no_handedness_no_trigger (now : ℚ) (width : Nat)
    (fr : FaceResults) (s : AlertState) (hls : List HandLandmarkList)
    (hr : HandResults)
    (hmhl : hr.multi_hand_landmarks = some hls)
    (hhd : hr.multi_handedness = none)
    (hwf : ∀ lms ∈ hls, lms.length = 21) :
    process_frame now width fr hr s =
      some ({ faces_detected := (fr.detections.getD []).length,
              hands_detected := hls.length, left_fist_detected := false },
            check_alert_timeout now s) := by
  have hph : process_hands now width hr (apply_faces fr detection_info_init) s
      = some ({ apply_faces fr detection_info_init with
                  hands_detected := hls.length }, s) := by
    rcases hls with _ | ⟨a, rest⟩
    · rw [process_hands, hmhl]
      simp [truthy, apply_faces_init]
    · rw [process_hands, hmhl, hhd]
      simp only [truthy, List.isEmpty_cons, Bool.not_false, if_true,
        Option.getD_some]
      apply foldlM_processHand_no_trigger
      rintro ⟨i, lms⟩ hx
      apply handTrigger_handedness_none
      have hmem : lms ∈ a :: rest := by
        have hg := List.mk_mem_enum_iff_getElem?.mp hx
        exact List.getElem?_mem hg
      rw [hwf _ hmem]
  rw [process_frame, hph]
  simp only [Option.bind_eq_bind', Option.some_bind', pure, apply_faces_init]

/-- Witness for C10 at a concrete frame with one fist hand and no
handedness list. -/
theorem c10_witness :
    process_frame 7 640 noFaces noHandednessResults
        { alert_active := true, alert_start_time := 1 } =
      some ({ faces_detected := (noFaces.detections.getD []).length,
              hands_detected := 1, left_fist_detected := false },
            check_alert_timeout 7 { alert_active := true, alert_start_time := 1 }) :=
  c10_no_handedness_no_trigger 7 640 noFaces
    { alert_active := true, alert_start_time := 1 } [fistHand]
    noHandednessResults rfl rfl (by decide)


end GestureDetector
